import Mathlib

/-!
Shallow embedding of `djangobench.py`, a benchmark-comparison harness.

The program discovers benchmark directories, runs each benchmark as a child
process under two framework installations (control and experiment), parses
the child's standard-output lines as floating-point timing samples, and
prints a colorized statistical comparison.

Modelling conventions:
* filesystem paths (`unipath.FSPath`) are modelled by `FSPath`: an
  absolute/relative flag plus a list of components (paths are assumed
  already normalised, so `absolute` is resolution against a cwd and
  `parent` drops the last component);
* a directory listing is a list of `AppDir` records stating which of the
  two required files each immediate subdirectory contains;
* a child-process run (`perf.CallAndCaptureOutput`) is modelled by an
  oracle `Nat → TrialOutput` giving, for each invocation of the current
  `run_benchmark` call (0 = priming run, 1..N = measured runs), the
  captured stdout text, stderr text and memory-usage figure;
* Python `float(...)` applied to an output line is modelled by
  `pyFloat : String → Option Rat` covering decimal literals with optional
  sign, fraction and exponent; a failing parse (Python's `ValueError`)
  is `none` and aborts the measurement;
* the effects of `main` are recorded as a trace of `Event`s; environment
  dictionaries carry an object identity (`envId`) so that sharing and
  mutation of the two dicts allocated in `main` are observable.
-/

deriving instance DecidableEq for Except

namespace Djangobench

/-- A filesystem path: absolute flag plus components, assumed normalised. -/
structure FSPath where
  isAbs : Bool
  components : List String
deriving DecidableEq, Repr

/-- `unipath` `.parent`: the path with its last component removed. -/
def FSPath.parent (p : FSPath) : FSPath :=
  ⟨p.isAbs, p.components.dropLast⟩

/-- `unipath` `.absolute()`: resolve a relative path against the cwd. -/
def FSPath.absolute (p cwd : FSPath) : FSPath :=
  if p.isAbs then p else ⟨cwd.isAbs, cwd.components ++ p.components⟩

/-- Render a path as the string the OS sees. -/
def FSPath.render (p : FSPath) : String :=
  (if p.isAbs then "/" else "") ++ String.intercalate "/" p.components

/-- An immediate subdirectory of the benchmark root: its name and which of
the two required files (`benchmark.py`, `settings.py`) it contains. -/
structure AppDir where
  name : String
  hasBenchmarkPy : Bool
  hasSettingsPy : Bool
deriving DecidableEq, Repr

/-- `discover_benchmarks` (djangobench.py lines 136-139): yield each child
directory of the benchmark root that has both `benchmark.py` and
`settings.py`. -/
def discover_benchmarks (listing : List AppDir) : List AppDir :=
  listing.filter (fun app => app.hasBenchmarkPy && app.hasSettingsPy)

/-- The triple captured from one child-process invocation by
`perf.CallAndCaptureOutput`: stdout text, stderr text, memory usage. -/
structure TrialOutput where
  stdout : String
  stderr : String
  mem_usage : Int
deriving DecidableEq, Repr

/-- `perf.RawData`: ordered timing samples, the memory-usage scalar, and
the captured stderr (`inst_output`) of the most recent invocation. -/
structure RawData where
  runtimes : List Rat
  mem_usage : Int
  inst_output : String
deriving DecidableEq, Repr

/-- How a `run_benchmark` call can fail: a Python `NameError` (reading
`mem_usage`/`stderr` when the trial loop never ran) or a `ValueError`
from `float(...)` on a non-numeric output line. -/
inductive RunError
  | nameError
  | parseError
deriving DecidableEq, Repr

/-- Numeric value of a list of decimal digit characters. -/
def digitsVal (cs : List Char) : Nat :=
  cs.foldl (fun a c => a * 10 + (c.toNat - 48)) 0

/-- Exponent part of a float literal, after the `e`/`E`: optional sign and
at least one digit. -/
def pyFloatExp (cs : List Char) : Option Int :=
  match cs with
  | '+' :: r => if r ≠ [] ∧ r.all Char.isDigit then some (digitsVal r) else none
  | '-' :: r => if r ≠ [] ∧ r.all Char.isDigit then some (-(digitsVal r : Int)) else none
  | r => if r ≠ [] ∧ r.all Char.isDigit then some (digitsVal r) else none

/-- Python `str.strip()` with no argument: remove whitespace from both
ends. -/
def pyStrip (cs : List Char) : List Char :=
  ((cs.dropWhile Char.isWhitespace).reverse.dropWhile Char.isWhitespace).reverse

/-- Python `float(line)` on a decimal literal: surrounding whitespace is
stripped; optional sign; digits with optional fraction (at least one digit
overall) and optional exponent. Any other text is a `ValueError` (`none`).
The exact decimal value is returned, as a rational built from the digit
strings. -/
def pyFloat (s : String) : Option Rat :=
  let cs := pyStrip s.toList
  let signAndDigits : Bool × List Char :=
    match cs with
    | '-' :: r => (true, r)
    | '+' :: r => (false, r)
    | r => (false, r)
  let neg := signAndDigits.1
  let cs1 := signAndDigits.2
  let intPart := cs1.takeWhile Char.isDigit
  let rest1 := cs1.drop intPart.length
  let fracAndRest : List Char × List Char :=
    match rest1 with
    | '.' :: r => (r.takeWhile Char.isDigit, r.drop (r.takeWhile Char.isDigit).length)
    | r => ([], r)
  let fracPart := fracAndRest.1
  let rest2 := fracAndRest.2
  if intPart = [] ∧ fracPart = [] then none
  else
    let expVal : Option Int :=
      match rest2 with
      | [] => some 0
      | 'e' :: r => pyFloatExp r
      | 'E' :: r => pyFloatExp r
      | _ => none
    match expVal with
    | none => none
    | some e =>
        let digits : Nat := digitsVal (intPart ++ fracPart)
        let num : Int := if neg then -(digits : Int) else (digits : Int)
        let num : Int := if 0 ≤ e then num * ((10 ^ e.toNat : Nat) : Int) else num
        let den : Nat := 10 ^ fracPart.length * (if e < 0 then 10 ^ (-e).toNat else 1)
        some (mkRat num den)

/-- Split a character list at every occurrence of `sep`. -/
def splitOnChar (sep : Char) : List Char → List (List Char)
  | [] => [[]]
  | c :: rest =>
      let r := splitOnChar sep rest
      if c = sep then [] :: r
      else
        match r with
        | [] => [[c]]
        | p :: ps => (c :: p) :: ps

/-- Python `str.splitlines` restricted to `\n` separators: split on
newlines, with no empty final piece for a trailing newline (and no pieces
at all for the empty string). -/
def splitlines (s : String) : List String :=
  let parts := splitOnChar '\n' s.toList
  let parts := if parts.getLast? = some [] then parts.dropLast else parts
  parts.map String.mk

/-- `float(line) for line in stdout.splitlines()`: every line must parse,
otherwise the whole measurement fails. -/
def parseLines (stdout : String) : Option (List Rat) :=
  (splitlines stdout).mapM pyFloat

/-- The measured-trial loop of `run_benchmark` (lines 153-157): `remaining`
trials left, `i` the oracle index of the next invocation, `data_points` the
samples accumulated so far, `last` the `(stderr, mem_usage)` bound by the
most recent iteration (`none` when the loop body has not yet run, modelling
the unbound Python locals). -/
def runTrialsLoop (oracle : Nat → TrialOutput) :
    Nat → Nat → List Rat → Option (String × Int) → Except RunError RawData
  | 0, _, _, none => .error .nameError
  | 0, _, data_points, some (stderr, mem_usage) =>
      .ok ⟨data_points, mem_usage, stderr⟩
  | remaining + 1, i, data_points, _ =>
      let output := oracle i
      match parseLines output.stdout with
      | none => .error .parseError
      | some vals =>
          runTrialsLoop oracle remaining (i + 1) (data_points ++ vals)
            (some (output.stderr, output.mem_usage))

/-- `run_benchmark` (lines 141-158): prime once with invocation 0 (output
discarded), then run `trials` measured invocations (oracle indices
1..trials), extending `data_points` with every parsed stdout line, and
return `RawData` built from the samples and the last trial's
stderr/memory figure. `RemovePycs` touches only the filesystem cache and
has no observable effect in this model. -/
def run_benchmark (trials : Nat) (oracle : Nat → TrialOutput) :
    Except RunError RawData :=
  let _prime := oracle 0
  runTrialsLoop oracle trials 1 [] none

/-! ### The environment dictionaries and the trace of `main` -/

/-- Which framework installation a child invocation runs under. -/
inductive Side
  | control
  | experiment
deriving DecidableEq, Repr

/-- Contents of one of the subshell environment dictionaries built in
`main` (lines 97-110 and 118-119): the code only ever stores the keys
`PYTHONPATH` (present from construction) and `DJANGO_SETTINGS_MODULE`
(absent until the loop assigns it). -/
structure EnvContent where
  pythonpath : String
  django_settings_module : Option String
deriving DecidableEq, Repr

/-- One observable step of `main`: a child-process invocation (tagged with
the benchmark, the side, whether it is a measured run or the priming run,
and the identity `envId` plus current contents of the environment dict it
received), the completion of a side's `RawData`, or the printing of one
benchmark's comparison. -/
inductive EventKind
  | invocation (side : Side) (measured : Bool) (envId : Nat) (env : EnvContent)
  | measurementBuilt (side : Side)
  | comparisonPrinted
deriving DecidableEq, Repr

/-- A trace event of `main`, tagged with the benchmark it concerns. -/
structure Event where
  benchmark : String
  kind : EventKind
deriving DecidableEq, Repr

/-- Object identity of the environment dict used by an invocation event,
when the event is an invocation. -/
def EventKind.envId? : EventKind → Option Nat
  | .invocation _ _ i _ => some i
  | _ => none

/-- The child invocations one `run_benchmark` call issues, in order: the
priming run (line 150, output discarded) followed by `trials` measured
runs (lines 154-155), all with the same environment dict. -/
def run_benchmark_invocations (name : String) (trials : Nat) (side : Side)
    (envId : Nat) (env : EnvContent) : List Event :=
  ⟨name, .invocation side false envId env⟩ ::
    List.replicate trials ⟨name, .invocation side true envId env⟩

/-- The dict allocated as `control_env` in `main`. -/
def controlEnvId : Nat := 0

/-- The dict allocated as `experiment_env` in `main`. -/
def experimentEnvId : Nat := 1

/-- Events of one iteration of `main`'s benchmark loop (lines 116-134):
all control-side invocations, the control `RawData` completed, all
experiment-side invocations, the experiment `RawData` completed, then the
comparison is printed. -/
def benchmarkEvents (name : String) (trials : Nat) (cenv eenv : EnvContent) :
    List Event :=
  run_benchmark_invocations name trials .control controlEnvId cenv
    ++ [⟨name, .measurementBuilt .control⟩]
    ++ run_benchmark_invocations name trials .experiment experimentEnvId eenv
    ++ [⟨name, .measurementBuilt .experiment⟩]
    ++ [⟨name, .comparisonPrinted⟩]

/-- The filter on line 115: `if not benchmarks or benchmark.name in
benchmarks`. -/
def selectedBy (benchmarks : List String) (app : AppDir) : Bool :=
  benchmarks.isEmpty || benchmarks.contains app.name

/-- The benchmark loop of `main` (lines 114-134). The two environment
dicts are threaded through the loop: each selected benchmark assigns
`DJANGO_SETTINGS_MODULE` in both dicts (lines 118-119), runs the control
side then the experiment side with the mutated dicts, and the mutated
contents persist into the next iteration. -/
def mainLoop (trials : Nat) (benchmarks : List String)
    (cenv eenv : EnvContent) : List AppDir → List Event
  | [] => []
  | app :: rest =>
      if selectedBy benchmarks app then
        let settings_mod := app.name ++ ".settings"
        let cenv' := { cenv with django_settings_module := some settings_mod }
        let eenv' := { eenv with django_settings_module := some settings_mod }
        benchmarkEvents app.name trials cenv' eenv'
          ++ mainLoop trials benchmarks cenv' eenv' rest
      else
        mainLoop trials benchmarks cenv eenv rest

/-- The `PYTHONPATH` value `main` builds for a side (lines 98-102 and
105-109): colon-joined absolute benchmark root, absolute parent of the
side's framework tree, and the directory containing the tool itself. -/
def pythonPathFor (cwd benchmark_dir tree scriptFile : FSPath) : String :=
  String.intercalate ":"
    [(benchmark_dir.absolute cwd).render,
     ((tree.parent).absolute cwd).render,
     (scriptFile.parent).render]

/-- The benchmark-running part of `main` (lines 97-134): allocate the two
environment dicts (with `PYTHONPATH` only), then iterate over the
discovered benchmarks. The version banner and `get_django_version` calls
(lines 84-93) precede this trace and involve no benchmark. -/
def main (cwd control experiment benchmark_dir scriptFile : FSPath)
    (benchmarks : List String) (trials : Nat) (listing : List AppDir) :
    List Event :=
  let control_env : EnvContent :=
    ⟨pythonPathFor cwd benchmark_dir control scriptFile, none⟩
  let experiment_env : EnvContent :=
    ⟨pythonPathFor cwd benchmark_dir experiment scriptFile, none⟩
  mainLoop trials benchmarks control_env experiment_env
    (discover_benchmarks listing)

/-! ### The report formatter -/

namespace colorize

/-- ANSI code for a good (green) delta. -/
def GOOD : String := "\x1b[92m"

/-- ANSI code for an insignificant (blue) verdict. -/
def INSIGNIFICANT : String := "\x1b[94m"

/-- ANSI code for a significant (yellow) verdict. -/
def SIGNIFICANT : String := "\x1b[93m"

/-- ANSI code for a bad (red) delta. -/
def BAD : String := "\x1b[91m"

/-- ANSI reset code. -/
def ENDC : String := "\x1b[0m"

set_option linter.dupNamespace false in
/-- `colorize.colorize`: wrap text in a color code and the reset code. -/
def colorize (color text : String) : String := color ++ text ++ ENDC

/-- `colorize.good`. -/
def good (text : String) : String := colorize GOOD text

/-- `colorize.significant`. -/
def significant (text : String) : String := colorize SIGNIFICANT text

/-- `colorize.insignificant`. -/
def insignificant (text : String) : String := colorize INSIGNIFICANT text

/-- `colorize.bad`. -/
def bad (text : String) : String := colorize BAD text

end colorize

/-- Whether `needle` occurs as a contiguous run inside `hay`. -/
def listContains (needle : List Char) : List Char → Bool
  | [] => needle.isEmpty
  | c :: rest => needle.isPrefixOf (c :: rest) || listContains needle rest

/-- Python's substring test `needle in hay`. -/
def strContains (hay needle : String) : Bool :=
  listContains needle.toList hay.toList

/-- The keyword classification applied to `delta_min` (lines 51-55) and to
`delta_avg` (lines 58-62): `"faster"` is colored good, otherwise
`"slower"` is colored bad, otherwise the text is unchanged. -/
def colorDeltaTime (delta : String) : String :=
  if strContains delta "faster" then colorize.good delta
  else if strContains delta "slower" then colorize.bad delta
  else delta

/-- The keyword classification applied to `t_msg` (lines 65-69):
`"Not significant"` is colored insignificant, otherwise `"Significant"`
is colored significant, otherwise the text is unchanged. -/
def colorTMsg (t_msg : String) : String :=
  if strContains t_msg "Not significant" then colorize.insignificant t_msg
  else if strContains t_msg "Significant" then colorize.significant t_msg
  else t_msg

/-- The keyword classification applied to `delta_std` (lines 72-76):
`"larger"` is colored bad, otherwise `"smaller"` is colored good,
otherwise the text is unchanged. -/
def colorDeltaStd (delta : String) : String :=
  if strContains delta "larger" then colorize.bad delta
  else if strContains delta "smaller" then colorize.good delta
  else delta

/-- A `perf.BenchmarkResult`: the numeric summaries of both sides plus the
delta and significance strings produced by the comparator, and the
timeline text returned by `get_timeline()`. -/
structure BenchmarkResult where
  min_base : Rat
  min_changed : Rat
  delta_min : String
  avg_base : Rat
  avg_changed : Rat
  delta_avg : String
  t_msg : String
  std_base : Rat
  std_changed : Rat
  delta_std : String
  timeline : String
deriving DecidableEq, Repr

/-- The argument of `colorize_benchmark_result`: either a
`perf.BenchmarkResult` or some other result, which Python renders with
`str(result)`. -/
inductive CompareResult
  | benchmark (r : BenchmarkResult)
  | other (s : String)
deriving DecidableEq, Repr

/-- Left-pad a numeral with zeroes to `len` characters. -/
def zeroPadLeft (len : Nat) (s : String) : String :=
  String.mk (List.replicate (len - s.length) '0') ++ s

/-- Python `"%.<prec>f"` formatting of a rational: sign, integer part and
`prec` digits after the point (rounding half up). -/
def fmtFixed (prec : Nat) (x : Rat) : String :=
  let pow10 : Nat := 10 ^ prec
  let neg := x < 0
  let y : Rat := if neg then -x else x
  let scaled : Nat := (y * (pow10 : Rat) + 1 / 2).floor.toNat
  (if neg then "-" else "")
    ++ toString (scaled / pow10) ++ "."
    ++ zeroPadLeft prec (toString (scaled % pow10))

/-- `colorize_benchmark_result` (lines 48-81): for a `BenchmarkResult`,
assemble the min, avg, significance and stddev lines, coloring each delta
by its keyword, and append the timeline; anything else is `str(result)`. -/
def colorize_benchmark_result : CompareResult → String
  | .other s => s
  | .benchmark r =>
      "Min: " ++ fmtFixed 6 r.min_base ++ " -> " ++ fmtFixed 6 r.min_changed
        ++ ": " ++ colorDeltaTime r.delta_min ++ "\n"
      ++ "Avg: " ++ fmtFixed 6 r.avg_base ++ " -> " ++ fmtFixed 6 r.avg_changed
        ++ ": " ++ colorDeltaTime r.delta_avg ++ "\n"
      ++ colorTMsg r.t_msg
      ++ "Stddev: " ++ fmtFixed 5 r.std_base ++ " -> " ++ fmtFixed 5 r.std_changed
        ++ ": " ++ colorDeltaStd r.delta_std
      ++ r.timeline

/-! ### Derived notions used in the statements, and concrete fixtures -/

/-- The concatenation, in invocation order, of the samples parsed from the
stdout of measured invocations `i, i+1, ..., i+k-1`. -/
def parsedConcat (oracle : Nat → TrialOutput) : Nat → Nat → List Rat
  | _, 0 => []
  | i, k + 1 => ((parseLines (oracle i).stdout).getD []) ++ parsedConcat oracle (i + 1) k

/-- Whether an event is a measured (non-priming) child invocation on the
given side. -/
def isMeasuredInvocation (side : Side) (e : Event) : Bool :=
  match e.kind with
  | .invocation s m _ _ => s == side && m
  | _ => false

/-- Whether a trace contains any event concerning the named benchmark. -/
def benchmarkRan (tr : List Event) (name : String) : Bool :=
  tr.any (fun e => e.benchmark == name)

/-- The freshness property asserted by the spec of the environment
mappings: invocation events of distinct benchmarks never use the same
environment object. -/
def envsFreshPerBenchmark (tr : List Event) : Bool :=
  tr.all fun e₁ => tr.all fun e₂ =>
    e₁.benchmark == e₂.benchmark ||
      match e₁.kind.envId?, e₂.kind.envId? with
      | some i₁, some i₂ => i₁ != i₂
      | _, _ => true

/-- The id of the dict `main` allocated for a side. -/
def sideEnvId : Side → Nat
  | .control => controlEnvId
  | .experiment => experimentEnvId

/-- The framework tree `main` uses for a side. -/
def sideTree (control experiment : FSPath) : Side → FSPath
  | .control => control
  | .experiment => experiment

/-- The events one selected benchmark should contribute to `main`'s trace:
the control block then the experiment block, each run with the side's base
environment extended with this benchmark's settings key. -/
def mainBenchmarkBlock (cwd control experiment benchmark_dir scriptFile : FSPath)
    (trials : Nat) (app : AppDir) : List Event :=
  benchmarkEvents app.name trials
    ⟨pythonPathFor cwd benchmark_dir control scriptFile, some (app.name ++ ".settings")⟩
    ⟨pythonPathFor cwd benchmark_dir experiment scriptFile, some (app.name ++ ".settings")⟩

/-- A concrete working directory. -/
def cwd0 : FSPath := ⟨true, ["home", "user"]⟩

/-- The default control tree `django-control/django`, relative. -/
def control0 : FSPath := ⟨false, ["django-control", "django"]⟩

/-- The default experiment tree `django-experiment/django`, relative. -/
def experiment0 : FSPath := ⟨false, ["django-experiment", "django"]⟩

/-- A concrete benchmark root directory. -/
def bdir0 : FSPath := ⟨true, ["home", "user", "djangobench", "benchmarks"]⟩

/-- A concrete path of the tool itself. -/
def script0 : FSPath := ⟨true, ["home", "user", "djangobench", "djangobench.py"]⟩

/-- A benchmark directory with both required files. -/
def appA : AppDir := ⟨"A", true, true⟩

/-- A directory with `benchmark.py` but no `settings.py`. -/
def appB : AppDir := ⟨"B", true, false⟩

/-- Another benchmark directory with both required files. -/
def appC : AppDir := ⟨"C", true, true⟩

/-- A concrete subprocess behavior: invocation `i` prints `"<i>.0"`, so
measured trials 1..3 print `"1.0"`, `"2.0"`, `"3.0"`; stderr and memory
figures differ per trial. -/
def oracleSamples : Nat → TrialOutput :=
  fun i => ⟨toString i ++ ".0", "err" ++ toString i, (i : Int)⟩

/-- A concrete subprocess behavior whose second measured trial emits the
non-numeric line `"abc"` after a numeric one. -/
def oracleBadLine : Nat → TrialOutput :=
  fun i => if i = 2 then ⟨"2.0\nabc", "err", 0⟩ else ⟨"1.0", "err", 0⟩

/-- The environment contents received by benchmark `A`'s control-side
invocations under the concrete paths above. -/
def envA0 : EnvContent :=
  ⟨"/home/user/djangobench/benchmarks:/home/user/django-control:/home/user/djangobench",
   some "A.settings"⟩

/-- The priming control-side invocation of benchmark `A` under the
concrete paths above. -/
def eventA0 : Event := ⟨"A", .invocation .control false 0 envA0⟩

/-! ### Lemmas about the trial loop -/

/-- The trial loop only consults the oracle at the indices it visits. -/
lemma runTrialsLoop_congr (oracle oracle' : Nat → TrialOutput) :
    ∀ (k i : Nat) (data : List Rat) (last : Option (String × Int)),
      (∀ j, i ≤ j → j < i + k → oracle j = oracle' j) →
      runTrialsLoop oracle k i data last = runTrialsLoop oracle' k i data last := by
  intro k
  induction k with
  | zero =>
      intro i data last _
      cases last with
      | none => rfl
      | some p => cases p; rfl
  | succ k ih =>
      intro i data last h
      have h0 : oracle i = oracle' i := h i le_rfl (by omega)
      simp only [runTrialsLoop, h0]
      cases hp : parseLines (oracle' i).stdout with
      | none => rfl
      | some vals =>
          exact ih (i + 1) (data ++ vals) _ (fun j hj1 hj2 => h j (by omega) (by omega))

/-- When every visited trial's stdout parses, the loop succeeds, appending
the parsed samples in invocation order and keeping the last trial's
stderr and memory figure. -/
lemma runTrialsLoop_ok (oracle : Nat → TrialOutput) :
    ∀ (k i : Nat) (data : List Rat) (last : Option (String × Int)),
      1 ≤ k →
      (∀ j, i ≤ j → j < i + k → (parseLines (oracle j).stdout).isSome = true) →
      runTrialsLoop oracle k i data last =
        .ok ⟨data ++ parsedConcat oracle i k,
             (oracle (i + k - 1)).mem_usage, (oracle (i + k - 1)).stderr⟩ := by
  intro k
  induction k with
  | zero => intro i data last h; omega
  | succ k ih =>
      intro i data last _ hparse
      have hi : (parseLines (oracle i).stdout).isSome = true :=
        hparse i le_rfl (by omega)
      obtain ⟨vals, hvals⟩ := Option.isSome_iff_exists.mp hi
      rcases Nat.eq_zero_or_pos k with hk | hk
      · subst hk
        simp [runTrialsLoop, hvals, parsedConcat]
      · simp only [runTrialsLoop, hvals]
        rw [ih (i + 1) (data ++ vals) _ hk
          (fun j hj1 hj2 => hparse j (by omega) (by omega))]
        have harith : i + 1 + k - 1 = i + (k + 1) - 1 := by omega
        simp [parsedConcat, hvals, harith]

/-- If some visited trial's stdout has a non-numeric line, the loop fails
with a parse error. -/
lemma runTrialsLoop_err (oracle : Nat → TrialOutput) :
    ∀ (k i : Nat) (data : List Rat) (last : Option (String × Int)),
      (∃ j, i ≤ j ∧ j < i + k ∧ parseLines (oracle j).stdout = none) →
      runTrialsLoop oracle k i data last = .error .parseError := by
  intro k
  induction k with
  | zero => rintro i data last ⟨j, h1, h2, -⟩; omega
  | succ k ih =>
      rintro i data last ⟨j, hij, hlt, hnone⟩
      cases hp : parseLines (oracle i).stdout with
      | none => simp [runTrialsLoop, hp]
      | some vals =>
          have hne : j ≠ i := by
            intro h; rw [h, hp] at hnone; cases hnone
          simp only [runTrialsLoop, hp]
          exact ih (i + 1) (data ++ vals) _ ⟨j, by omega, by omega, hnone⟩

/-- Unfolding `run_benchmark` to the trial loop started after the priming
invocation. -/
lemma run_benchmark_def (trials : Nat) (oracle : Nat → TrialOutput) :
    run_benchmark trials oracle = runTrialsLoop oracle trials 1 [] none := rfl

/-- C1: for every benchmark and every trial count N ≥ 1, one
`run_benchmark` call issues exactly N+1 child invocations for its
(benchmark, side): the first is the priming invocation, whose output is
discarded (the returned measurement depends only on the outputs of
invocations 1..N), and the remaining N are measured invocations. -/
theorem run_benchmark_issues_prime_then_trials (name : String) (trials : Nat)
    (side : Side) (envId : Nat) (env : EnvContent) (_h : 1 ≤ trials) :
    (run_benchmark_invocations name trials side envId env).length = trials + 1 ∧
    (run_benchmark_invocations name trials side envId env).head? =
      some ⟨name, .invocation side false envId env⟩ ∧
    (run_benchmark_invocations name trials side envId env).tail =
      List.replicate trials ⟨name, .invocation side true envId env⟩ ∧
    (run_benchmark_invocations name trials side envId env).countP
      (isMeasuredInvocation side) = trials ∧
    ∀ oracle oracle' : Nat → TrialOutput,
      (∀ j, 1 ≤ j → oracle j = oracle' j) →
      run_benchmark trials oracle = run_benchmark trials oracle' := by
  refine ⟨by simp [run_benchmark_invocations], rfl, rfl, ?_, ?_⟩
  · simp [run_benchmark_invocations, List.countP_cons, List.countP_replicate,
      isMeasuredInvocation]
  · intro oracle oracle' hagree
    rw [run_benchmark_def, run_benchmark_def]
    exact runTrialsLoop_congr oracle oracle' trials 1 [] none
      (fun j hj _ => hagree j hj)

/-- Witness for C1 at N = 2: three invocations are recorded, and changing
only the priming invocation's output does not change the measurement. -/
theorem run_benchmark_issues_prime_then_trials_witness :
    (run_benchmark_invocations "A" 2 .control controlEnvId
      ⟨"p", some "A.settings"⟩).length = 2 + 1 ∧
    run_benchmark 2 oracleSamples =
      run_benchmark 2 (fun j => if j = 0 then ⟨"ignored", "x", 99⟩ else oracleSamples j) := by
  have h := run_benchmark_issues_prime_then_trials "A" 2 .control controlEnvId
    ⟨"p", some "A.settings"⟩ (by decide)
  refine ⟨h.1, h.2.2.2.2 _ _ ?_⟩
  intro j hj
  have hne : j ≠ 0 := by omega
  simp [hne]

/-- C2: for every sequence of measured-trial outputs that all parse,
`run_benchmark` parses each stdout line as one sample and concatenates the
samples in invocation order; a non-numeric line in any measured trial
makes the whole measurement fail with a parse error rather than being
skipped or coerced. -/
theorem run_benchmark_parses_each_line_in_order (trials : Nat)
    (oracle : Nat → TrialOutput) (h : 1 ≤ trials) :
    ((∀ j, 1 ≤ j → j ≤ trials → (parseLines (oracle j).stdout).isSome = true) →
      ∃ rd, run_benchmark trials oracle = .ok rd ∧
        rd.runtimes = parsedConcat oracle 1 trials) ∧
    ((∃ j, 1 ≤ j ∧ j ≤ trials ∧ parseLines (oracle j).stdout = none) →
      run_benchmark trials oracle = .error .parseError) := by
  constructor
  · intro hp
    rw [run_benchmark_def,
      runTrialsLoop_ok oracle trials 1 [] none h (fun j hj1 hj2 => hp j hj1 (by omega))]
    exact ⟨_, rfl, by simp⟩
  · rintro ⟨j, hj1, hj2, hnone⟩
    rw [run_benchmark_def]
    exact runTrialsLoop_err oracle trials 1 [] none ⟨j, hj1, by omega, hnone⟩

/-- Witness for C2: measured outputs `"1.0"`, `"2.0"`, `"3.0"` yield the
sample sequence `[1.0, 2.0, 3.0]` in that order, and an `"abc"` line in
one trial's output aborts the measurement with a parse error. -/
theorem run_benchmark_parses_each_line_in_order_witness :
    (∃ rd, run_benchmark 3 oracleSamples = .ok rd ∧
      rd.runtimes = parsedConcat oracleSamples 1 3) ∧
    run_benchmark 3 oracleSamples = .ok ⟨[1, 2, 3], 3, "err3"⟩ ∧
    run_benchmark 2 oracleBadLine = .error .parseError := by
  refine ⟨(run_benchmark_parses_each_line_in_order 3 oracleSamples (by decide)).1 ?_,
    by decide,
    (run_benchmark_parses_each_line_in_order 2 oracleBadLine (by decide)).2
      ⟨2, by decide, by decide, by decide⟩⟩
  intro j h1 h2
  interval_cases j <;> decide

/-- C6: for every measurement with N ≥ 1 trials whose outputs parse, the
memory-usage scalar stored in the returned `RawData` is exactly the one
reported by the N-th (final) measured invocation, and the stored stderr
text is that of the final invocation only. -/
theorem run_benchmark_keeps_last_trial_mem_stderr (trials : Nat)
    (oracle : Nat → TrialOutput) (h : 1 ≤ trials)
    (hp : ∀ j, 1 ≤ j → j ≤ trials → (parseLines (oracle j).stdout).isSome = true) :
    ∃ rd, run_benchmark trials oracle = .ok rd ∧
      rd.mem_usage = (oracle trials).mem_usage ∧
      rd.inst_output = (oracle trials).stderr := by
  rw [run_benchmark_def,
    runTrialsLoop_ok oracle trials 1 [] none h (fun j hj1 hj2 => hp j hj1 (by omega))]
  have harith : 1 + trials - 1 = trials := by omega
  exact ⟨_, rfl, by simp [harith], by simp [harith]⟩

/-- Witness for C6 at N = 3, where the three trials report memory figures
1, 2, 3 and stderr texts `"err1"`, `"err2"`, `"err3"`: the `RawData` keeps
the final trial's figure and text. -/
theorem run_benchmark_keeps_last_trial_mem_stderr_witness :
    ∃ rd, run_benchmark 3 oracleSamples = .ok rd ∧
      rd.mem_usage = (oracleSamples 3).mem_usage ∧
      rd.inst_output = (oracleSamples 3).stderr := by
  exact run_benchmark_keeps_last_trial_mem_stderr 3 oracleSamples (by decide)
    (by intro j h1 h2; interval_cases j <;> decide)

/-- C10: `run_benchmark` requires at least one trial: with `trials = 0`
the loop body never binds `mem_usage`/`stderr`, so the call fails with a
name error instead of returning a measurement, while for every
`trials ≥ 1` (with parseable outputs) a `RawData` is returned. -/
theorem run_benchmark_zero_trials_name_error (oracle : Nat → TrialOutput) :
    run_benchmark 0 oracle = .error .nameError ∧
    ∀ trials, 1 ≤ trials →
      (∀ j, 1 ≤ j → j ≤ trials → (parseLines (oracle j).stdout).isSome = true) →
      ∃ rd, run_benchmark trials oracle = .ok rd := by
  refine ⟨rfl, ?_⟩
  intro trials h hp
  rw [run_benchmark_def,
    runTrialsLoop_ok oracle trials 1 [] none h (fun j hj1 hj2 => hp j hj1 (by omega))]
  exact ⟨_, rfl⟩

/-- Witness for C10: with no trials the call fails with a name error;
with three trials it returns a measurement. -/
theorem run_benchmark_zero_trials_name_error_witness :
    run_benchmark 0 oracleSamples = .error .nameError ∧
    ∃ rd, run_benchmark 3 oracleSamples = .ok rd := by
  refine ⟨(run_benchmark_zero_trials_name_error oracleSamples).1,
    (run_benchmark_zero_trials_name_error oracleSamples).2 3 (by decide) ?_⟩
  intro j h1 h2
  interval_cases j <;> decide

/-! ### Lemmas about the main loop's trace -/

/-- Threading the two (mutated) environment dicts through the loop is
extensionally the same as handing each selected benchmark the base
contents extended with its settings key: the loop's assignment overwrites
the whole key, and `PYTHONPATH` is never touched. -/
lemma mainLoop_eq (trials : Nat) (B : List String) :
    ∀ (apps : List AppDir) (cenv eenv : EnvContent),
      mainLoop trials B cenv eenv apps =
        (apps.filter (selectedBy B)).flatMap (fun app =>
          benchmarkEvents app.name trials
            ⟨cenv.pythonpath, some (app.name ++ ".settings")⟩
            ⟨eenv.pythonpath, some (app.name ++ ".settings")⟩) := by
  intro apps
  induction apps with
  | nil => intro cenv eenv; rfl
  | cons app rest ih =>
      intro cenv eenv
      cases hsel : selectedBy B app with
      | false =>
          rw [List.filter_cons_of_neg (by simp [hsel])]
          simp only [mainLoop, hsel]
          exact ih cenv eenv
      | true =>
          rw [List.filter_cons_of_pos hsel]
          simp only [mainLoop, hsel, if_true]
          rw [ih]
          simp

/-- Every event of one benchmark's block carries that benchmark's name,
and its invocation events use exactly the dict the block was given for
the corresponding side. -/
lemma mem_benchmarkEvents (name : String) (trials : Nat) (cenv eenv : EnvContent) :
    ∀ e ∈ benchmarkEvents name trials cenv eenv,
      e.benchmark = name ∧
      ∀ side m envId env, e.kind = .invocation side m envId env →
        (side = .control ∧ envId = controlEnvId ∧ env = cenv) ∨
        (side = .experiment ∧ envId = experimentEnvId ∧ env = eenv) := by
  intro e he
  simp only [benchmarkEvents, run_benchmark_invocations, List.append_assoc,
    List.mem_append, List.mem_cons, List.mem_replicate, List.mem_singleton,
    List.not_mem_nil, or_false] at he
  rcases he with (rfl | ⟨-, rfl⟩) | rfl | (rfl | ⟨-, rfl⟩) | rfl | rfl <;>
    refine ⟨rfl, ?_⟩ <;> intro side m envId env hk <;>
    cases hk
  · exact Or.inl ⟨rfl, rfl, rfl⟩
  · exact Or.inl ⟨rfl, rfl, rfl⟩
  · exact Or.inr ⟨rfl, rfl, rfl⟩
  · exact Or.inr ⟨rfl, rfl, rfl⟩

/-- `selectedBy` is the filter the claim describes: run everything when no
names were requested, otherwise run the named benchmarks. -/
lemma selectedBy_iff (B : List String) (app : AppDir) :
    selectedBy B app = true ↔ (B = [] ∨ app.name ∈ B) := by
  simp [selectedBy, List.isEmpty_iff]

/-- Every invocation event in `main`'s trace uses the dict allocated for
its side (`control_env` or `experiment_env`), whose contents at that
moment are the side's `PYTHONPATH` plus the settings key of the event's
benchmark. -/
lemma main_invocation_env (cwd control experiment benchmark_dir scriptFile : FSPath)
    (B : List String) (trials : Nat) (listing : List AppDir) :
    ∀ e ∈ main cwd control experiment benchmark_dir scriptFile B trials listing,
      ∀ side m envId env, e.kind = .invocation side m envId env →
        envId = sideEnvId side ∧
        env = ⟨pythonPathFor cwd benchmark_dir (sideTree control experiment side)
                 scriptFile,
               some (e.benchmark ++ ".settings")⟩ := by
  intro e he side m envId env hk
  simp only [main] at he
  rw [mainLoop_eq] at he
  rw [List.mem_flatMap] at he
  obtain ⟨app, -, hemem⟩ := he
  obtain ⟨hname, hinv⟩ := mem_benchmarkEvents _ _ _ _ e hemem
  rcases hinv side m envId env hk with ⟨hs, hid, henv⟩ | ⟨hs, hid, henv⟩ <;>
    subst hs <;> simp [hid, henv, hname, sideEnvId, sideTree]

/-- C3 (counterexample): the claim that no environment object is reused
across benchmarks is false on the code: with two selected benchmarks, the
invocations of benchmark `A` and benchmark `C` use the same two dicts
(`control_env` with id 0, `experiment_env` with id 1), which `main`
allocated once before the loop and mutates per benchmark. -/
theorem main_env_reuse_counterexample :
    envsFreshPerBenchmark
      (main cwd0 control0 experiment0 bdir0 script0 [] 1 [appA, appB, appC]) = false := by
  decide

/-- C3 (amended): `main` allocates exactly two environment dicts for the
whole run, one per side, and reuses them (mutating the settings key) for
every benchmark; each child invocation nonetheless receives contents equal
to the side's base environment plus the current benchmark's settings
key. -/
theorem main_envs_shared_but_correct (cwd control experiment benchmark_dir
    scriptFile : FSPath) (B : List String) (trials : Nat) (listing : List AppDir)
    (e : Event)
    (he : e ∈ main cwd control experiment benchmark_dir scriptFile B trials listing)
    (side : Side) (m : Bool) (envId : Nat) (env : EnvContent)
    (hk : e.kind = .invocation side m envId env) :
    envId = sideEnvId side ∧
    env = ⟨pythonPathFor cwd benchmark_dir (sideTree control experiment side)
             scriptFile,
           some (e.benchmark ++ ".settings")⟩ :=
  main_invocation_env cwd control experiment benchmark_dir scriptFile B trials
    listing e he side m envId env hk

/-- Witness for the amended C3: benchmark `A`'s priming control invocation
under the concrete paths uses dict 0 with the control `PYTHONPATH` and
`A.settings`. -/
theorem main_envs_shared_but_correct_witness :
    controlEnvId = controlEnvId ∧
    envA0 = ⟨pythonPathFor cwd0 bdir0 control0 script0, some ("A" ++ ".settings")⟩ :=
  main_envs_shared_but_correct cwd0 control0 experiment0 bdir0 script0 [] 1
    [appA] eventA0 (by decide) .control false controlEnvId envA0 rfl

/-- C4: discovery yields exactly the immediate subdirectories containing
both `benchmark.py` and `settings.py`; of `{A: both, B: entry-point only,
C: both}` exactly `A` and `C` are yielded, and zero matches is not an
error (the empty list is returned). -/
theorem discover_benchmarks_requires_both_files :
    (∀ (listing : List AppDir) (app : AppDir),
      app ∈ discover_benchmarks listing ↔
        app ∈ listing ∧ app.hasBenchmarkPy = true ∧ app.hasSettingsPy = true) ∧
    discover_benchmarks [appA, appB, appC] = [appA, appC] ∧
    discover_benchmarks [appB] = [] := by
  refine ⟨?_, by decide, by decide⟩
  intro listing app
  simp [discover_benchmarks, List.mem_filter, and_assoc]

/-- C5: every child invocation's environment has `PYTHONPATH` equal to the
colon-joined list of the absolute benchmark root, the absolute parent of
the side's framework tree, and the tool's own directory, in that order,
and `DJANGO_SETTINGS_MODULE` equal to `<benchmark-name>.settings`. -/
theorem main_child_env_pythonpath_settings (cwd control experiment benchmark_dir
    scriptFile : FSPath) (B : List String) (trials : Nat) (listing : List AppDir)
    (e : Event)
    (he : e ∈ main cwd control experiment benchmark_dir scriptFile B trials listing)
    (side : Side) (m : Bool) (envId : Nat) (env : EnvContent)
    (hk : e.kind = .invocation side m envId env) :
    env.pythonpath = String.intercalate ":"
      [(benchmark_dir.absolute cwd).render,
       (((sideTree control experiment side).parent).absolute cwd).render,
       (scriptFile.parent).render] ∧
    env.django_settings_module = some (e.benchmark ++ ".settings") := by
  obtain ⟨-, henv⟩ := main_invocation_env cwd control experiment benchmark_dir
    scriptFile B trials listing e he side m envId env hk
  subst henv
  exact ⟨rfl, rfl⟩

/-- Witness for C5: benchmark `A`'s priming control invocation under the
concrete paths receives the concrete colon-joined `PYTHONPATH` and
`A.settings`. -/
theorem main_child_env_pythonpath_settings_witness :
    envA0.pythonpath = String.intercalate ":"
      [(bdir0.absolute cwd0).render, ((control0.parent).absolute cwd0).render,
       (script0.parent).render] ∧
    envA0.django_settings_module = some ("A" ++ ".settings") :=
  main_child_env_pythonpath_settings cwd0 control0 experiment0 bdir0 script0 [] 1
    [appA] eventA0 (by decide) .control false controlEnvId envA0 rfl

/-- C8: execution is strictly sequential: the trace of `main` is the
concatenation, over the discovered-and-selected benchmarks in discovery
order, of that benchmark's block; each block runs all control invocations,
completes the control measurement, then runs all experiment invocations,
completes the experiment measurement, and prints the comparison; both
sides are measured the identical `trials` number of times. -/
theorem main_runs_sequentially (cwd control experiment benchmark_dir
    scriptFile : FSPath) (B : List String) (trials : Nat) (listing : List AppDir) :
    main cwd control experiment benchmark_dir scriptFile B trials listing =
      ((discover_benchmarks listing).filter (selectedBy B)).flatMap
        (mainBenchmarkBlock cwd control experiment benchmark_dir scriptFile trials) ∧
    (∀ app : AppDir,
      mainBenchmarkBlock cwd control experiment benchmark_dir scriptFile trials app =
        run_benchmark_invocations app.name trials .control controlEnvId
            ⟨pythonPathFor cwd benchmark_dir control scriptFile,
             some (app.name ++ ".settings")⟩
          ++ [⟨app.name, .measurementBuilt .control⟩]
          ++ run_benchmark_invocations app.name trials .experiment experimentEnvId
            ⟨pythonPathFor cwd benchmark_dir experiment scriptFile,
             some (app.name ++ ".settings")⟩
          ++ [⟨app.name, .measurementBuilt .experiment⟩]
          ++ [⟨app.name, .comparisonPrinted⟩]) ∧
    (∀ app : AppDir,
      (mainBenchmarkBlock cwd control experiment benchmark_dir scriptFile trials
        app).countP (isMeasuredInvocation .control) = trials ∧
      (mainBenchmarkBlock cwd control experiment benchmark_dir scriptFile trials
        app).countP (isMeasuredInvocation .experiment) = trials) := by
  refine ⟨?_, fun app => by simp [mainBenchmarkBlock, benchmarkEvents, List.append_assoc],
    fun app => ⟨?_, ?_⟩⟩
  · simp only [main]
    rw [mainLoop_eq]
    rfl
  · simp [mainBenchmarkBlock, benchmarkEvents, run_benchmark_invocations,
      List.countP_append, List.countP_cons, List.countP_replicate, isMeasuredInvocation]
  · simp [mainBenchmarkBlock, benchmarkEvents, run_benchmark_invocations,
      List.countP_append, List.countP_cons, List.countP_replicate, isMeasuredInvocation]

/-- C9: a discovered benchmark is processed iff the requested-name list is
empty or contains its name; concretely, requesting `["A"]` when discovery
yields `{A, B, C}` produces a trace whose events all concern `A`, and `A`
does run. -/
theorem main_filters_requested_benchmarks (cwd control experiment benchmark_dir
    scriptFile : FSPath) (B : List String) (trials : Nat) (listing : List AppDir)
    (name : String) :
    (benchmarkRan (main cwd control experiment benchmark_dir scriptFile B trials
        listing) name = true ↔
      ∃ app ∈ discover_benchmarks listing,
        app.name = name ∧ (B = [] ∨ name ∈ B)) ∧
    (main cwd0 control0 experiment0 bdir0 script0 ["A"] 1 [appA, appB, appC]).all
      (fun e => e.benchmark == "A") = true ∧
    benchmarkRan (main cwd0 control0 experiment0 bdir0 script0 ["A"] 1
      [appA, appB, appC]) "A" = true := by
  refine ⟨?_, by decide, by decide⟩
  simp only [benchmarkRan, List.any_eq_true, main]
  rw [mainLoop_eq]
  constructor
  · rintro ⟨e, he, hbeq⟩
    rw [List.mem_flatMap] at he
    obtain ⟨app, happ, hemem⟩ := he
    rw [List.mem_filter] at happ
    obtain ⟨hmem, hsel⟩ := happ
    obtain ⟨hname, -⟩ := mem_benchmarkEvents _ _ _ _ e hemem
    have hn : app.name = name := by rw [← hname]; exact eq_of_beq hbeq
    refine ⟨app, hmem, hn, ?_⟩
    rcases (selectedBy_iff B app).mp hsel with h | h
    · exact Or.inl h
    · exact Or.inr (hn ▸ h)
  · rintro ⟨app, hmem, hname, hsel⟩
    refine ⟨⟨app.name, .comparisonPrinted⟩, ?_, by simp [hname]⟩
    rw [List.mem_flatMap]
    refine ⟨app, ?_, ?_⟩
    · rw [List.mem_filter]
      refine ⟨hmem, (selectedBy_iff B app).mpr ?_⟩
      rcases hsel with h | h
      · exact Or.inl h
      · exact Or.inr (hname ▸ h)
    · simp [benchmarkEvents]

/-- C7: the report formatter classifies each delta line by keyword and
applies the corresponding color tag: a min/avg delta containing `"faster"`
is colored good and one containing `"slower"` is colored bad; a stddev
delta containing `"larger"` is colored bad and one containing `"smaller"`
is colored good; a significance message containing `"Not significant"` is
colored insignificant and one containing `"Significant"` is colored
significant; text matching none of the keywords is emitted unchanged.
(Lines 52-76 test the keywords in this order, so the first listed keyword
of each pair takes precedence when both occur.) -/
theorem colorize_result_classifies_by_keyword :
    (∀ s, strContains s "faster" = true → colorDeltaTime s = colorize.good s) ∧
    (∀ s, strContains s "faster" = false → strContains s "slower" = true →
      colorDeltaTime s = colorize.bad s) ∧
    (∀ s, strContains s "faster" = false → strContains s "slower" = false →
      colorDeltaTime s = s) ∧
    (∀ s, strContains s "Not significant" = true →
      colorTMsg s = colorize.insignificant s) ∧
    (∀ s, strContains s "Not significant" = false →
      strContains s "Significant" = true → colorTMsg s = colorize.significant s) ∧
    (∀ s, strContains s "Not significant" = false →
      strContains s "Significant" = false → colorTMsg s = s) ∧
    (∀ s, strContains s "larger" = true → colorDeltaStd s = colorize.bad s) ∧
    (∀ s, strContains s "larger" = false → strContains s "smaller" = true →
      colorDeltaStd s = colorize.good s) ∧
    (∀ s, strContains s "larger" = false → strContains s "smaller" = false →
      colorDeltaStd s = s) ∧
    (∀ r, colorize_benchmark_result (.benchmark r) =
      "Min: " ++ fmtFixed 6 r.min_base ++ " -> " ++ fmtFixed 6 r.min_changed
        ++ ": " ++ colorDeltaTime r.delta_min ++ "\n"
      ++ "Avg: " ++ fmtFixed 6 r.avg_base ++ " -> " ++ fmtFixed 6 r.avg_changed
        ++ ": " ++ colorDeltaTime r.delta_avg ++ "\n"
      ++ colorTMsg r.t_msg
      ++ "Stddev: " ++ fmtFixed 5 r.std_base ++ " -> " ++ fmtFixed 5 r.std_changed
        ++ ": " ++ colorDeltaStd r.delta_std
      ++ r.timeline) ∧
    (∀ s, colorize_benchmark_result (.other s) = s) := by
  refine ⟨fun s h => ?_, fun s h1 h2 => ?_, fun s h1 h2 => ?_,
    fun s h => ?_, fun s h1 h2 => ?_, fun s h1 h2 => ?_,
    fun s h => ?_, fun s h1 h2 => ?_, fun s h1 h2 => ?_,
    fun r => rfl, fun s => rfl⟩ <;>
    simp [colorDeltaTime, colorTMsg, colorDeltaStd, *]

/-- Witness for C7 on concrete comparator messages: each keyword class
receives its color, and keyword-free text passes through unchanged. -/
theorem colorize_result_classifies_by_keyword_witness :
    colorDeltaTime "10.5% faster" = colorize.good "10.5% faster" ∧
    colorDeltaTime "3.2% slower" = colorize.bad "3.2% slower" ∧
    colorDeltaTime "no change" = "no change" ∧
    colorTMsg "Not significant\n" = colorize.insignificant "Not significant\n" ∧
    colorTMsg "Significant (t=3.00)\n" = colorize.significant "Significant (t=3.00)\n" ∧
    colorTMsg "t-test omitted\n" = "t-test omitted\n" ∧
    colorDeltaStd "12.0% larger" = colorize.bad "12.0% larger" ∧
    colorDeltaStd "8.1% smaller" = colorize.good "8.1% smaller" ∧
    colorDeltaStd "unchanged" = "unchanged" := by
  have h := colorize_result_classifies_by_keyword
  exact ⟨h.1 _ (by decide),
    h.2.1 _ (by decide) (by decide),
    h.2.2.1 _ (by decide) (by decide),
    h.2.2.2.1 _ (by decide),
    h.2.2.2.2.1 _ (by decide) (by decide),
    h.2.2.2.2.2.1 _ (by decide) (by decide),
    h.2.2.2.2.2.2.1 _ (by decide),
    h.2.2.2.2.2.2.2.1 _ (by decide) (by decide),
    h.2.2.2.2.2.2.2.2.1 _ (by decide) (by decide)⟩

end Djangobench
